import Mathlib

/-!
HybridLLMGateway request scheduler, verified model.

A shallow embedding of `backend/app/services/request_scheduler.py`: the
`RequestScheduler` class that arbitrates concurrent capacity between
latency-sensitive ("realtime") requests and queued ("task") requests.

Modelling conventions:

* Python ints are `ℕ`/`ℤ`; the clamped decrements `max(0, x - 1)` are `ℕ`
  subtraction.
* The float comparisons `a >= n * 0.7`, `a >= n * 0.4`, `a < n * 0.4` with
  integer `a`, `n` are exact in IEEE double for all realistic magnitudes, so
  they are modelled by the equivalent integer inequalities `10*a ≥ 7*n`,
  `10*a ≥ 4*n`, `10*a < 4*n`; likewise `int(n * 0.1)` and `int(n * 0.3)`
  (truncation of a non-negative float) are the natural-number divisions
  `n / 10` and `3 * n / 10`.  Latencies and thresholds are `ℚ`.
* The asyncio concurrency of the class is modelled as an interleaving of
  atomic slices: every `Action` below is one uninterrupted stretch of a
  coroutine between `await` points (asyncio is cooperatively scheduled, so
  such a slice runs without interference).
* Database commits are modelled by the final `JobRecord` a handler produces;
  the external `model_provider_service.generate` call is parametrised by its
  outcome (`GenResult`), a raised exception and a timeout alike being the
  `err` case.
-/

namespace HybridLLMGateway

/-- Job lifecycle status: the `status` strings written to a request row
(`"pending"`, `"processing"`, `"completed"`, `"failed"`). -/
inductive JobStatus
  | pending
  | processing
  | completed
  | failed
deriving DecidableEq, Repr

/-- The slice of a request row (`db_request`) that the scheduler writes. -/
structure JobRecord where
  status : JobStatus
  response : Option String
  error : Option String
  latency : Option ℚ
deriving DecidableEq, Repr

/-- Outcome of the awaited `model_provider_service.generate` call: a response
string, or the message of the exception it raised (a timeout raises too). -/
inductive GenResult
  | ok (resp : String)
  | err (msg : String)
deriving DecidableEq, Repr

/-- The static configuration `RequestScheduler.__init__` reads from
`settings`. -/
structure Settings where
  MAX_CONCURRENT_REQUESTS : ℕ
  TASK_REQUEST_CAP : ℤ
  LATENCY_THRESHOLD : ℚ
deriving DecidableEq, Repr

/-- The mutable state of the single `RequestScheduler` instance.  The fields
up to `is_running` are the Python attributes; `loop_instances` counts the
live `_process_task_queue` coroutines (observable to asyncio, not stored on
the object), and `submitted` / `dispatched` are ghost histories of request
ids in admission and in dispatch order, used to state ordering claims. -/
structure SchedulerState where
  active_realtime_requests : ℕ
  active_task_requests : ℕ
  max_concurrent_requests : ℕ
  task_request_cap : ℤ
  latency_threshold : ℚ
  task_queue : List ℕ
  is_running : Bool
  loop_instances : ℕ
  submitted : List ℕ
  dispatched : List ℕ
deriving DecidableEq, Repr

/-- Python `RequestScheduler.__init__`: counters at zero, configuration
copied from `settings`, empty queue, dispatch loop not running. -/
def initScheduler (settings : Settings) : SchedulerState where
  active_realtime_requests := 0
  active_task_requests := 0
  max_concurrent_requests := settings.MAX_CONCURRENT_REQUESTS
  task_request_cap := settings.TASK_REQUEST_CAP
  latency_threshold := settings.LATENCY_THRESHOLD
  task_queue := []
  is_running := false
  loop_instances := 0
  submitted := []
  dispatched := []

/-- The dynamic cap adjustment at the top of `handle_realtime_request`
(the three-branch block run right after `active_realtime_requests += 1`):

    if self.active_realtime_requests >= self.max_concurrent_requests * 0.7:
        self.task_request_cap = max(1, int(self.max_concurrent_requests * 0.1))
    elif self.active_realtime_requests >= self.max_concurrent_requests * 0.4:
        self.task_request_cap = max(2, int(self.max_concurrent_requests * 0.3))
    elif self.active_realtime_requests > 0:
        self.task_request_cap = max(3, self.max_concurrent_requests - self.active_realtime_requests - 1)

`a` is the (already incremented) active realtime count, `n` the configured
maximum, `cap` the previous cap (kept when no branch fires, which cannot
happen for `a ≥ 1`). -/
def loadShedCap (n a : ℕ) (cap : ℤ) : ℤ :=
  if 10 * a ≥ 7 * n then max 1 ((n / 10 : ℕ) : ℤ)
  else if 10 * a ≥ 4 * n then max 2 ((3 * n / 10 : ℕ) : ℤ)
  else if 0 < a then max 3 ((n : ℤ) - (a : ℤ) - 1)
  else cap

/-- The cap adjustment in the `finally` block of `handle_realtime_request`
(run after `active_realtime_requests = max(0, active_realtime_requests - 1)`):

    if self.active_realtime_requests == 0:
        self.task_request_cap = self.max_concurrent_requests - 2
    elif self.active_realtime_requests < self.max_concurrent_requests * 0.4:
        self.task_request_cap = min(self.max_concurrent_requests - 1, self.task_request_cap + 1)

`a` is the post-decrement active realtime count. -/
def recoveryCap (n a : ℕ) (cap : ℤ) : ℤ :=
  if a = 0 then (n : ℤ) - 2
  else if 10 * a < 4 * n then min ((n : ℤ) - 1) (cap + 1)
  else cap

/-- The cap adjustment at the end of `update_system_stats` (run after the
`SystemStats` snapshot is committed):

    if avg_latency > self.latency_threshold:
        self.task_request_cap = max(1, self.task_request_cap - 1)
    elif self.active_realtime_requests == 0 and self.task_request_cap < self.max_concurrent_requests - 1:
        self.task_request_cap += 1

`avg` is the average latency computed from the recent completed rows (data
external to the scheduler state), `thr` the configured threshold. -/
def feedbackCap (n a : ℕ) (thr avg : ℚ) (cap : ℤ) : ℤ :=
  if avg > thr then max 1 (cap - 1)
  else if a = 0 ∧ cap < (n : ℤ) - 1 then cap + 1
  else cap

/-- Python `RequestScheduler.handle_realtime_request` end to end, as a function of
the generation outcome `g` and the measured latency `lat`: the admission
slice (increment then `loadShedCap`), the `try` body (status `processing`,
the generate call, then the `completed` or `failed` commit — the `except`
branch re-raises), and the `finally` slice (clamped decrement then
`recoveryCap`).  Returns the final scheduler state, the final request row,
and what the caller sees (`Except.error` = the re-raised exception). -/
def handle_realtime_request (s : SchedulerState) (job : JobRecord)
    (g : GenResult) (lat : ℚ) :
    SchedulerState × JobRecord × Except String String :=
  let a1 := s.active_realtime_requests + 1
  let s1 := { s with active_realtime_requests := a1,
                     task_request_cap :=
                       loadShedCap s.max_concurrent_requests a1 s.task_request_cap }
  let jobP := { job with status := JobStatus.processing }
  let result :=
    match g with
    | GenResult.ok resp =>
        ({ jobP with status := JobStatus.completed, response := some resp,
                     latency := some lat },
         Except.ok resp)
    | GenResult.err e =>
        ({ jobP with status := JobStatus.failed, error := some e,
                     latency := some lat },
         Except.error e)
  let a2 := s1.active_realtime_requests - 1
  let s2 := { s1 with active_realtime_requests := a2,
                      task_request_cap :=
                        recoveryCap s1.max_concurrent_requests a2 s1.task_request_cap }
  (s2, result)

/-- Python `RequestScheduler._execute_task_request` end to end: increment
`active_task_requests`, status `processing`, the generate call, the
`completed` or `failed` commit (the `except` branch swallows the exception —
note the return type has no error channel), and the `finally` slice (clamped
decrement).  The task cap is not touched. -/
def execute_task_request (s : SchedulerState) (job : JobRecord)
    (g : GenResult) (lat : ℚ) : SchedulerState × JobRecord :=
  let s1 := { s with active_task_requests := s.active_task_requests + 1 }
  let jobP := { job with status := JobStatus.processing }
  let jobF :=
    match g with
    | GenResult.ok resp =>
        { jobP with status := JobStatus.completed, response := some resp,
                    latency := some lat }
    | GenResult.err e =>
        { jobP with status := JobStatus.failed, error := some e,
                    latency := some lat }
  ({ s1 with active_task_requests := s1.active_task_requests - 1 }, jobF)

/-- One observable step of the concurrent system: each constructor is one
uninterrupted slice of a coroutine between `await` points.

* `submit req` — `handle_task_request`: enqueue `req`, then start a dispatch
  loop if `is_running` is false (the check and the set are one slice).
* `loopIter` — one iteration of `_process_task_queue`: empty queue ⇒ clear
  `is_running` and terminate this instance; at or over cap ⇒ back off
  (state unchanged); otherwise dequeue the head and launch its execution
  (the launched `_execute_task_request` increments `active_task_requests`
  before its first `await`, i.e. within the same scheduling slice).
* `realtimeAdmit` / `realtimeFinish` — the admission and `finally` slices of
  `handle_realtime_request` (its generate call is an `await` between them).
* `taskFinish` — the `finally` slice of a launched `_execute_task_request`:
  clamped decrement of `active_task_requests`.
* `statsCycle avg` — `update_system_stats` with computed average latency
  `avg`: snapshot (external write), then `feedbackCap`. -/
inductive Action
  | submit (req : ℕ)
  | loopIter
  | realtimeAdmit
  | realtimeFinish
  | taskFinish
  | statsCycle (avg : ℚ)
deriving DecidableEq, Repr

/-- The transition function of the system: apply one `Action` slice. -/
def applyAction (s : SchedulerState) : Action → SchedulerState
  | Action.submit req =>
      let s1 := { s with task_queue := s.task_queue ++ [req],
                         submitted := s.submitted ++ [req] }
      if s1.is_running then s1
      else { s1 with is_running := true, loop_instances := s1.loop_instances + 1 }
  | Action.loopIter =>
      if s.loop_instances = 0 then s
      else
        match s.task_queue with
        | [] => { s with is_running := false,
                         loop_instances := s.loop_instances - 1 }
        | req :: rest =>
            if (s.active_task_requests : ℤ) ≥ s.task_request_cap then s
            else
              { s with task_queue := rest,
                       active_task_requests := s.active_task_requests + 1,
                       dispatched := s.dispatched ++ [req] }
  | Action.realtimeAdmit =>
      let a1 := s.active_realtime_requests + 1
      { s with active_realtime_requests := a1,
               task_request_cap :=
                 loadShedCap s.max_concurrent_requests a1 s.task_request_cap }
  | Action.realtimeFinish =>
      let a2 := s.active_realtime_requests - 1
      { s with active_realtime_requests := a2,
               task_request_cap :=
                 recoveryCap s.max_concurrent_requests a2 s.task_request_cap }
  | Action.taskFinish =>
      { s with active_task_requests := s.active_task_requests - 1 }
  | Action.statsCycle avg =>
      { s with task_request_cap :=
          (feedbackCap s.max_concurrent_requests s.active_realtime_requests
            s.latency_threshold avg s.task_request_cap) }

/-- Run the system from a fresh scheduler through a sequence of slices. -/
def run (settings : Settings) (acts : List Action) : SchedulerState :=
  acts.foldl applyAction (initScheduler settings)

/-- The load-shedding policy exactly as the design document words it, with
`round`, over exact rational arithmetic: severe throttle
`max(1, round(0.1 × maxConcurrent))`, moderate throttle
`max(2, round(0.3 × maxConcurrent))`, light throttle
`max(3, maxConcurrent − activeRealtime − 1)`.  Stated for comparison with
`loadShedCap`, which is translated from the code. -/
def specLoadShedRound (n a : ℕ) (cap : ℤ) : ℤ :=
  if (a : ℚ) ≥ 0.7 * (n : ℚ) then max 1 (round ((0.1 : ℚ) * (n : ℚ)))
  else if (a : ℚ) ≥ 0.4 * (n : ℚ) then max 2 (round ((0.3 : ℚ) * (n : ℚ)))
  else if 0 < a then max 3 ((n : ℤ) - (a : ℤ) - 1)
  else cap

/-- The load-shedding policy with the two `round`s replaced by truncation
toward zero (floor, these products being non-negative) — what Python
`int(...)` actually computes. -/
def specLoadShedFloor (n a : ℕ) (cap : ℤ) : ℤ :=
  if (a : ℚ) ≥ 0.7 * (n : ℚ) then max 1 ⌊(0.1 : ℚ) * (n : ℚ)⌋
  else if (a : ℚ) ≥ 0.4 * (n : ℚ) then max 2 ⌊(0.3 : ℚ) * (n : ℚ)⌋
  else if 0 < a then max 3 ((n : ℤ) - (a : ℤ) - 1)
  else cap

/-- The recovery policy as the design document words it, over exact rational
arithmetic, applied to the post-decrement activeRealtime `a`. -/
def specRecoveryCap (n a : ℕ) (cap : ℤ) : ℤ :=
  if a = 0 then (n : ℤ) - 2
  else if (a : ℚ) < 0.4 * (n : ℚ) then min ((n : ℤ) - 1) (cap + 1)
  else cap

/-- Cap bounds invariant: configuration large enough and
`taskCap ∈ [1, maxConcurrent − 1]`. -/
def CapInv (s : SchedulerState) : Prop :=
  4 ≤ s.max_concurrent_requests ∧ 1 ≤ s.task_request_cap ∧
    s.task_request_cap ≤ (s.max_concurrent_requests : ℤ) - 1

/-- Dispatch-loop invariant: at most one live `_process_task_queue`
coroutine, `is_running` tracks it exactly, and whenever the queue is
non-empty a loop instance is live to drain it. -/
def LoopInv (s : SchedulerState) : Prop :=
  s.loop_instances ≤ 1 ∧ (s.is_running = true ↔ s.loop_instances = 1) ∧
    (s.task_queue ≠ [] → s.loop_instances = 1)

instance (s : SchedulerState) : Decidable (CapInv s) := by
  unfold CapInv; infer_instance

instance (s : SchedulerState) : Decidable (LoopInv s) := by
  unfold LoopInv; infer_instance

/-- Ghost-trace invariant: the ids dispatched so far followed by the ids
still queued are exactly the ids admitted, in admission order. -/
def FifoInv (s : SchedulerState) : Prop :=
  s.dispatched ++ s.task_queue = s.submitted

/-- Sample configuration used by the concrete witnesses below. -/
def demoSettings : Settings where
  MAX_CONCURRENT_REQUESTS := 10
  TASK_REQUEST_CAP := 8
  LATENCY_THRESHOLD := 300

/-- Fresh scheduler on the sample configuration. -/
def demoState : SchedulerState := initScheduler demoSettings

/-- A pending request row, as the API layer hands it to the scheduler. -/
def demoJob : JobRecord where
  status := JobStatus.pending
  response := none
  error := none
  latency := none

/-- A scheduler moment at task capacity with work queued: five task
executions in flight against a cap of three, one queued job, the dispatch
loop live. -/
def demoBusy : SchedulerState :=
  { demoState with active_task_requests := 5, task_request_cap := 3,
                   task_queue := [7], is_running := true, loop_instances := 1,
                   submitted := [7] }

/-! Bridging lemmas: the rational-arithmetic thresholds and floors of the
policy wording agree with the integer arithmetic of the translated code. -/

theorem le_seven_tenths_iff (n a : ℕ) :
    (0.7 : ℚ) * (n : ℚ) ≤ (a : ℚ) ↔ 7 * n ≤ 10 * a := by
  rw [show (0.7 : ℚ) = 7 / 10 by norm_num, div_mul_eq_mul_div,
    div_le_iff₀ (by norm_num : (0 : ℚ) < 10)]
  norm_cast
  omega

theorem le_four_tenths_iff (n a : ℕ) :
    (0.4 : ℚ) * (n : ℚ) ≤ (a : ℚ) ↔ 4 * n ≤ 10 * a := by
  rw [show (0.4 : ℚ) = 4 / 10 by norm_num, div_mul_eq_mul_div,
    div_le_iff₀ (by norm_num : (0 : ℚ) < 10)]
  norm_cast
  omega

theorem lt_four_tenths_iff (n a : ℕ) :
    (a : ℚ) < (0.4 : ℚ) * (n : ℚ) ↔ 10 * a < 4 * n := by
  rw [show (0.4 : ℚ) = 4 / 10 by norm_num, div_mul_eq_mul_div,
    lt_div_iff₀ (by norm_num : (0 : ℚ) < 10)]
  norm_cast
  omega

theorem floor_one_tenth (n : ℕ) :
    ⌊(0.1 : ℚ) * (n : ℚ)⌋ = ((n / 10 : ℕ) : ℤ) := by
  rw [show (0.1 : ℚ) * (n : ℚ) = ((n : ℕ) : ℚ) / ((10 : ℕ) : ℚ) by push_cast; ring,
    Rat.floor_natCast_div_natCast]
  omega

theorem floor_three_tenths (n : ℕ) :
    ⌊(0.3 : ℚ) * (n : ℚ)⌋ = ((3 * n / 10 : ℕ) : ℤ) := by
  rw [show (0.3 : ℚ) * (n : ℚ) = ((3 * n : ℕ) : ℚ) / ((10 : ℕ) : ℚ) by push_cast; ring,
    Rat.floor_natCast_div_natCast]
  omega

/-- The translated admission block computes exactly the floor variant of the
load-shedding policy. -/
theorem loadShedCap_eq_floorSpec (n a : ℕ) (cap : ℤ) :
    loadShedCap n a cap = specLoadShedFloor n a cap := by
  simp only [loadShedCap, specLoadShedFloor, ge_iff_le, le_seven_tenths_iff,
    le_four_tenths_iff, floor_one_tenth, floor_three_tenths]

/-- The translated recovery block computes exactly the recovery policy as
worded. -/
theorem recoveryCap_eq_spec (n a : ℕ) (cap : ℤ) :
    recoveryCap n a cap = specRecoveryCap n a cap := by
  simp only [recoveryCap, specRecoveryCap, lt_four_tenths_iff]

/-- C1, counterexample: the claim says every realtime admission recomputes
taskCap with `round`, but the code truncates (`int`).  At
maxConcurrent = 15, the admission that raises activeRealtime to 11 trips the
severe branch: the scheduler sets taskCap to `max(1, int(1.5)) = 1`, while
the claimed formula gives `max(1, round(1.5)) = 2`. -/
theorem C1_loadShed_round_counterexample :
    (applyAction
        { initScheduler { MAX_CONCURRENT_REQUESTS := 15, TASK_REQUEST_CAP := 13,
                          LATENCY_THRESHOLD := 300 } with
          active_realtime_requests := 10 }
        Action.realtimeAdmit).task_request_cap = 1 ∧
      specLoadShedRound 15 11 13 = 2 := by
  constructor
  · show loadShedCap 15 (10 + 1) 13 = 1
    decide
  · rw [specLoadShedRound, if_pos (by norm_num : ((11 : ℕ) : ℚ) ≥ 0.7 * ((15 : ℕ) : ℚ)),
      show (0.1 : ℚ) * ((15 : ℕ) : ℚ) = 3 / 2 by norm_num, round_eq]
    norm_num

/-- C1, amended: on every realtime admission, after incrementing
activeRealtime, the scheduler recomputes taskCap by the load-shedding policy
with truncation toward zero in place of round: severe
`max(1, ⌊0.1 × maxConcurrent⌋)`, moderate `max(2, ⌊0.3 × maxConcurrent⌋)`,
light `max(3, maxConcurrent − activeRealtime − 1)`.  Holds for every
starting state, hence for every maxConcurrent > 1. -/
theorem C1_loadShed_floor_policy (s : SchedulerState) :
    (applyAction s Action.realtimeAdmit).active_realtime_requests
        = s.active_realtime_requests + 1 ∧
      (applyAction s Action.realtimeAdmit).task_request_cap
        = specLoadShedFloor s.max_concurrent_requests
            (s.active_realtime_requests + 1) s.task_request_cap :=
  ⟨rfl, loadShedCap_eq_floorSpec _ _ _⟩

/-- C4: on every realtime completion, after the clamped decrement of
activeRealtime, the scheduler applies the recovery policy to the
post-decrement value — zero in flight restores taskCap to maxConcurrent − 2,
under 0.4 × maxConcurrent relaxes it one step capped at maxConcurrent − 1,
otherwise it is unchanged; in particular once the last in-flight realtime
request completes, taskCap equals maxConcurrent − 2. -/
theorem C4_recovery_policy (s : SchedulerState) :
    (applyAction s Action.realtimeFinish).active_realtime_requests
        = s.active_realtime_requests - 1 ∧
      (applyAction s Action.realtimeFinish).task_request_cap
        = specRecoveryCap s.max_concurrent_requests
            (s.active_realtime_requests - 1) s.task_request_cap ∧
      (s.active_realtime_requests ≤ 1 →
        (applyAction s Action.realtimeFinish).task_request_cap
          = (s.max_concurrent_requests : ℤ) - 2) := by
  refine ⟨rfl, recoveryCap_eq_spec _ _ _, fun h1 => ?_⟩
  have h0 : s.active_realtime_requests - 1 = 0 := by omega
  show recoveryCap _ _ _ = _
  rw [h0, recoveryCap, if_pos rfl]

/-- C4, witness: on the sample configuration (maxConcurrent = 10) a realtime
completion from the idle state leaves activeRealtime at 0 and sets taskCap
to 8 = maxConcurrent − 2. -/
theorem C4_recovery_policy_witness :
    (applyAction demoState Action.realtimeFinish).task_request_cap
      = ((demoState.max_concurrent_requests : ℤ) - 2) :=
  (C4_recovery_policy demoState).2.2 (by decide)

/-- C10: a stats-aggregator cycle writes only taskCap — activeRealtime,
activeTask, the pending queue, maxConcurrent, latencyThreshold,
dispatchRunning (and even the count of live loop instances) are unchanged,
whatever average latency the cycle computed. -/
theorem C10_stats_cycle_frame (s : SchedulerState) (avg : ℚ) :
    (applyAction s (Action.statsCycle avg)).active_realtime_requests
        = s.active_realtime_requests ∧
      (applyAction s (Action.statsCycle avg)).active_task_requests
        = s.active_task_requests ∧
      (applyAction s (Action.statsCycle avg)).task_queue = s.task_queue ∧
      (applyAction s (Action.statsCycle avg)).max_concurrent_requests
        = s.max_concurrent_requests ∧
      (applyAction s (Action.statsCycle avg)).latency_threshold
        = s.latency_threshold ∧
      (applyAction s (Action.statsCycle avg)).is_running = s.is_running ∧
      (applyAction s (Action.statsCycle avg)).loop_instances = s.loop_instances :=
  ⟨rfl, rfl, rfl, rfl, rfl, rfl, rfl⟩

/-- C9: a failed realtime execution surfaces the failure to the caller
(the handler returns the re-raised error) with the job recorded Failed,
while a failed task execution records Failed on the job, keeps the error on
the record rather than any error channel (`execute_task_request` has none in
its type), and the completion slice of a task touches neither the dispatch
loop instance count, the running flag, nor the queue — one job failing
cannot terminate the loop. -/
theorem C9_failure_isolation (s : SchedulerState) (job : JobRecord)
    (lat : ℚ) (e resp : String) :
    (handle_realtime_request s job (GenResult.err e) lat).2.2 = Except.error e ∧
      (handle_realtime_request s job (GenResult.ok resp) lat).2.2 = Except.ok resp ∧
      (handle_realtime_request s job (GenResult.err e) lat).2.1.status
        = JobStatus.failed ∧
      (execute_task_request s job (GenResult.err e) lat).2.status
        = JobStatus.failed ∧
      (execute_task_request s job (GenResult.err e) lat).2.error = some e ∧
      (applyAction s Action.taskFinish).loop_instances = s.loop_instances ∧
      (applyAction s Action.taskFinish).is_running = s.is_running ∧
      (applyAction s Action.taskFinish).task_queue = s.task_queue :=
  ⟨rfl, rfl, rfl, rfl, rfl, rfl, rfl, rfl⟩

/-- C3: on both execution paths the final (`finally`) step always runs —
whatever the generation outcome, the corresponding active counter returns to
its pre-admission value (the increment is undone by the clamped decrement),
and on the failure path the job ends Failed with its latency recorded. -/
theorem C3_final_step_always_runs (s : SchedulerState) (job : JobRecord)
    (g : GenResult) (lat : ℚ) :
    (handle_realtime_request s job g lat).1.active_realtime_requests
        = s.active_realtime_requests ∧
      (execute_task_request s job g lat).1.active_task_requests
        = s.active_task_requests ∧
      ∀ e, g = GenResult.err e →
        (handle_realtime_request s job g lat).2.1.status = JobStatus.failed ∧
        (handle_realtime_request s job g lat).2.1.latency = some lat ∧
        (execute_task_request s job g lat).2.status = JobStatus.failed ∧
        (execute_task_request s job g lat).2.latency = some lat := by
  refine ⟨?_, ?_, ?_⟩
  · cases g <;> simp [handle_realtime_request]
  · cases g <;> simp [execute_task_request]
  · rintro e rfl
    exact ⟨rfl, rfl, rfl, rfl⟩

/-- C3, witness: a realtime request whose generation raises, run from the
fresh sample scheduler, ends Failed and leaves activeRealtime back at its
pre-admission value. -/
theorem C3_final_step_always_runs_witness :
    (handle_realtime_request demoState demoJob (GenResult.err "boom") 42).2.1.status
        = JobStatus.failed ∧
      (handle_realtime_request demoState demoJob
          (GenResult.err "boom") 42).1.active_realtime_requests
        = demoState.active_realtime_requests :=
  ⟨((C3_final_step_always_runs demoState demoJob (GenResult.err "boom") 42).2.2
      "boom" rfl).1,
    (C3_final_step_always_runs demoState demoJob (GenResult.err "boom") 42).1⟩

/-- C7: each stats-aggregator cycle applies exactly one branch of the
feedback policy after the snapshot — average latency above the threshold
decrements taskCap by exactly 1 with floor 1; otherwise an idle system
(activeRealtime = 0) with taskCap below maxConcurrent − 1 increments it by
exactly 1; otherwise taskCap is unchanged. -/
theorem C7_feedback_policy (s : SchedulerState) (avg : ℚ) :
    (s.latency_threshold < avg →
        (applyAction s (Action.statsCycle avg)).task_request_cap
            = max 1 (s.task_request_cap - 1) ∧
          1 ≤ (applyAction s (Action.statsCycle avg)).task_request_cap ∧
          (2 ≤ s.task_request_cap →
            (applyAction s (Action.statsCycle avg)).task_request_cap
              = s.task_request_cap - 1)) ∧
      (¬ s.latency_threshold < avg → s.active_realtime_requests = 0 →
        s.task_request_cap < (s.max_concurrent_requests : ℤ) - 1 →
        (applyAction s (Action.statsCycle avg)).task_request_cap
          = s.task_request_cap + 1) ∧
      (¬ s.latency_threshold < avg →
        ¬ (s.active_realtime_requests = 0 ∧
            s.task_request_cap < (s.max_concurrent_requests : ℤ) - 1) →
        (applyAction s (Action.statsCycle avg)).task_request_cap
          = s.task_request_cap) := by
  simp only [applyAction]
  rw [feedbackCap]
  split_ifs with h1 h2
  · exact ⟨fun _ => ⟨rfl, le_max_left 1 _, fun h2c => max_eq_right (by omega)⟩,
      fun hle => absurd h1 hle, fun hle => absurd h1 hle⟩
  · exact ⟨fun hgt => absurd hgt h1, fun _ _ _ => rfl,
      fun _ hnot => absurd h2 hnot⟩
  · exact ⟨fun hgt => absurd hgt h1, fun _ h0 hlt => absurd ⟨h0, hlt⟩ h2,
      fun _ _ => rfl⟩

/-- C7, witness: an aggregator cycle that measures average latency 500
against threshold 300 on the fresh sample scheduler lowers taskCap by one,
staying at least 1. -/
theorem C7_feedback_policy_witness :
    (applyAction demoState (Action.statsCycle 500)).task_request_cap
        = max 1 (demoState.task_request_cap - 1) ∧
      1 ≤ (applyAction demoState (Action.statsCycle 500)).task_request_cap :=
  ⟨((C7_feedback_policy demoState 500).1 (by norm_num [demoState,
      initScheduler, demoSettings])).1,
    ((C7_feedback_policy demoState 500).1 (by norm_num [demoState,
      initScheduler, demoSettings])).2.1⟩

/-- Step preservation lifts to any run of the system. -/
theorem foldl_preserve {P : SchedulerState → Prop}
    (hstep : ∀ s a, P s → P (applyAction s a)) :
    ∀ (acts : List Action) (s : SchedulerState), P s → P (acts.foldl applyAction s)
  | [], _, h => h
  | a :: acts, s, h => foldl_preserve hstep acts (applyAction s a) (hstep s a h)

/-- Every slice preserves the cap bounds, once maxConcurrent ≥ 4. -/
theorem capInv_step (s : SchedulerState) (a : Action) (h : CapInv s) :
    CapInv (applyAction s a) := by
  obtain ⟨hn, hlo, hhi⟩ := h
  cases a with
  | submit req =>
      simp only [applyAction, CapInv]
      split <;> exact ⟨hn, hlo, hhi⟩
  | loopIter =>
      simp only [applyAction, CapInv]
      split
      · exact ⟨hn, hlo, hhi⟩
      · split
        · exact ⟨hn, hlo, hhi⟩
        · split
          · exact ⟨hn, hlo, hhi⟩
          · exact ⟨hn, hlo, hhi⟩
  | realtimeAdmit =>
      simp only [applyAction, CapInv, loadShedCap]
      split_ifs <;> refine ⟨hn, ?_, ?_⟩ <;> omega
  | realtimeFinish =>
      simp only [applyAction, CapInv, recoveryCap]
      split_ifs <;> refine ⟨hn, ?_, ?_⟩ <;> omega
  | taskFinish =>
      exact ⟨hn, hlo, hhi⟩
  | statsCycle avg =>
      simp only [applyAction, CapInv, feedbackCap]
      split_ifs <;> refine ⟨hn, ?_, ?_⟩ <;> omega

/-- Every slice preserves the dispatch-loop invariant. -/
theorem loopInv_step (s : SchedulerState) (a : Action) (h : LoopInv s) :
    LoopInv (applyAction s a) := by
  obtain ⟨h1, h2, h3⟩ := h
  cases a with
  | submit req =>
      simp only [applyAction, LoopInv]
      split
      · next hr => dsimp only; exact ⟨h1, h2, fun _ => h2.mp hr⟩
      · next hr =>
          dsimp only
          have h0 : s.loop_instances ≠ 1 := fun he => hr (h2.mpr he)
          refine ⟨by omega, ?_, fun _ => by omega⟩
          constructor
          · intro _; omega
          · intro _; rfl
  | loopIter =>
      simp only [applyAction, LoopInv]
      split
      · exact ⟨h1, h2, h3⟩
      · next h0 =>
          split
          · next heq =>
              dsimp only
              refine ⟨by omega, ?_, fun hne => absurd heq hne⟩
              constructor
              · intro hf; exact absurd hf (by simp)
              · intro hl; exact absurd hl (by omega)
          · next req rest heq =>
              have hone : s.loop_instances = 1 := h3 (by rw [heq]; simp)
              split
              · exact ⟨h1, h2, fun _ => hone⟩
              · dsimp only; exact ⟨h1, h2, fun _ => hone⟩
  | realtimeAdmit => exact ⟨h1, h2, h3⟩
  | realtimeFinish => exact ⟨h1, h2, h3⟩
  | taskFinish => exact ⟨h1, h2, h3⟩
  | statsCycle avg => exact ⟨h1, h2, h3⟩

/-- Every slice preserves the ghost-trace equation. -/
theorem fifoInv_step (s : SchedulerState) (a : Action) (h : FifoInv s) :
    FifoInv (applyAction s a) := by
  unfold FifoInv at h ⊢
  cases a with
  | submit req =>
      simp only [applyAction]
      split <;>
        · dsimp only
          rw [← List.append_assoc, h]
  | loopIter =>
      simp only [applyAction]
      split
      · exact h
      · split
        · exact h
        · next req rest heq =>
            split
            · exact h
            · dsimp only
              rw [List.append_assoc]
              rw [heq] at h
              simpa using h
  | realtimeAdmit => exact h
  | realtimeFinish => exact h
  | taskFinish => exact h
  | statsCycle avg => exact h

/-- Enqueueing starts a fresh loop instance exactly when none is running. -/
theorem applyAction_submit_instances (s : SchedulerState) (req : ℕ) :
    (applyAction s (Action.submit req)).loop_instances
      = if s.is_running = true then s.loop_instances
        else s.loop_instances + 1 := by
  simp only [applyAction]
  split
  · dsimp only
  · dsimp only

/-- A loop iteration retires its instance only on observing an empty
queue. -/
theorem loopIter_decreases_only_on_empty (s : SchedulerState)
    (hlt : (applyAction s Action.loopIter).loop_instances < s.loop_instances) :
    s.task_queue = [] := by
  rcases hq : s.task_queue with _ | ⟨req, rest⟩
  · rfl
  · have heqi : (applyAction s Action.loopIter).loop_instances = s.loop_instances := by
      simp only [applyAction]
      split
      · rfl
      · rw [hq]
        dsimp only
        split
        · rfl
        · rfl
    omega

/-- C2, counterexample: the claimed bound `taskCap ∈ [1, maxConcurrent − 1]`
fails on reachable states — with maxConcurrent = 3 and the cap starting in
range at 2, a single realtime admission takes the light branch and sets
taskCap to max(3, 3 − 1 − 1) = 3 > maxConcurrent − 1 = 2; and the claim also
admits arbitrary initial caps, so a fresh scheduler configured with cap 100
over maxConcurrent = 5 is already out of range. -/
theorem C2_taskCap_bounds_counterexample :
    (run ⟨3, 2, 300⟩ [Action.realtimeAdmit]).task_request_cap = 3 ∧
      (run ⟨3, 2, 300⟩ [Action.realtimeAdmit]).max_concurrent_requests = 3 ∧
      ¬ ((run ⟨3, 2, 300⟩ [Action.realtimeAdmit]).task_request_cap
          ≤ ((run ⟨3, 2, 300⟩ [Action.realtimeAdmit]).max_concurrent_requests : ℤ) - 1) ∧
      (initScheduler ⟨5, 100, 300⟩).task_request_cap = 100 ∧
      ¬ ((initScheduler ⟨5, 100, 300⟩).task_request_cap
          ≤ ((initScheduler ⟨5, 100, 300⟩).max_concurrent_requests : ℤ) - 1) := by
  refine ⟨by decide, by decide, by decide, by decide, by decide⟩

/-- C2, amended: once maxConcurrent ≥ 4 and the configured initial cap lies
in [1, maxConcurrent − 1], every reachable state — any interleaving of
submissions, dispatch iterations, realtime admissions and completions, task
completions and stats cycles — keeps taskCap within
[1, maxConcurrent − 1]. -/
theorem C2_taskCap_bounds_amended (settings : Settings) (acts : List Action)
    (hn : 4 ≤ settings.MAX_CONCURRENT_REQUESTS)
    (hlo : 1 ≤ settings.TASK_REQUEST_CAP)
    (hhi : settings.TASK_REQUEST_CAP ≤ (settings.MAX_CONCURRENT_REQUESTS : ℤ) - 1) :
    1 ≤ (run settings acts).task_request_cap ∧
      (run settings acts).task_request_cap
        ≤ ((run settings acts).max_concurrent_requests : ℤ) - 1 := by
  have h := foldl_preserve capInv_step acts (initScheduler settings) ⟨hn, hlo, hhi⟩
  exact ⟨h.2.1, h.2.2⟩

/-- C2, witness: on the sample configuration (maxConcurrent = 10, cap 8) a
realtime admission followed by an overloaded stats cycle leaves the cap in
[1, 9]. -/
theorem C2_taskCap_bounds_amended_witness :
    1 ≤ (run demoSettings [Action.realtimeAdmit, Action.statsCycle 500]).task_request_cap ∧
      (run demoSettings [Action.realtimeAdmit, Action.statsCycle 500]).task_request_cap
        ≤ ((run demoSettings
            [Action.realtimeAdmit, Action.statsCycle 500]).max_concurrent_requests : ℤ) - 1 :=
  C2_taskCap_bounds_amended demoSettings [Action.realtimeAdmit, Action.statsCycle 500]
    (by decide) (by decide) (by decide)

/-- C6: in every reachable state at most one dispatch-loop instance is live,
`dispatchRunning` is true exactly when one is, a non-empty queue always has
its (single) drainer, a submission starts a new instance exactly when the
flag is false, and an iteration retires its instance only on observing an
empty queue — so no two instances ever drain the queue concurrently. -/
theorem C6_single_dispatch_loop (settings : Settings) (acts : List Action) :
    (run settings acts).loop_instances ≤ 1 ∧
      ((run settings acts).is_running = true ↔ (run settings acts).loop_instances = 1) ∧
      ((run settings acts).task_queue ≠ [] → (run settings acts).loop_instances = 1) ∧
      (∀ req, (applyAction (run settings acts) (Action.submit req)).loop_instances
          = if (run settings acts).is_running = true then (run settings acts).loop_instances
            else (run settings acts).loop_instances + 1) ∧
      ((applyAction (run settings acts) Action.loopIter).loop_instances
          < (run settings acts).loop_instances → (run settings acts).task_queue = []) := by
  have hinit : LoopInv (initScheduler settings) :=
    ⟨by simp [initScheduler], by simp [initScheduler], by simp [initScheduler]⟩
  have h := foldl_preserve loopInv_step acts (initScheduler settings) hinit
  exact ⟨h.1, h.2.1, h.2.2,
    fun req => applyAction_submit_instances (run settings acts) req,
    loopIter_decreases_only_on_empty (run settings acts)⟩

/-- C6, witness: after one task submission to the fresh sample scheduler the
queue is non-empty and exactly one dispatch-loop instance is live. -/
theorem C6_single_dispatch_loop_witness :
    (run demoSettings [Action.submit 7]).loop_instances = 1 :=
  (C6_single_dispatch_loop demoSettings [Action.submit 7]).2.2.1 (by decide)

/-- C8: in every reachable state the ids dispatched so far, followed by the
ids still queued, are exactly the admitted ids in admission order — the
queue is strict FIFO, so the dispatch order is an initial segment of the
admission order and a job admitted earlier is never launched after one
admitted later. -/
theorem C8_fifo_order (settings : Settings) (acts : List Action) :
    (run settings acts).dispatched ++ (run settings acts).task_queue
        = (run settings acts).submitted ∧
      List.IsPrefix (run settings acts).dispatched (run settings acts).submitted := by
  have h := foldl_preserve fifoInv_step acts (initScheduler settings) rfl
  exact ⟨h, ⟨(run settings acts).task_queue, h⟩⟩

/-- C5: a dispatch iteration at or over the cap neither dequeues nor
launches (it backs off with counters and queue untouched); an iteration
never pushes activeTask above the larger of its starting value and the cap
it observed; and whenever an iteration does dequeue, the cap check had
passed — the head job is removed, and the launch leaves activeTask at most
the observed taskCap. -/
theorem C5_dispatch_never_exceeds_cap (s : SchedulerState) :
    (s.task_request_cap ≤ (s.active_task_requests : ℤ) →
        (applyAction s Action.loopIter).active_task_requests = s.active_task_requests ∧
        (applyAction s Action.loopIter).task_queue = s.task_queue) ∧
      (((applyAction s Action.loopIter).active_task_requests : ℤ)
          ≤ max (s.active_task_requests : ℤ) s.task_request_cap) ∧
      ((applyAction s Action.loopIter).task_queue ≠ s.task_queue →
        ((s.active_task_requests : ℤ) < s.task_request_cap ∧
          (applyAction s Action.loopIter).task_queue = s.task_queue.tail ∧
          ((applyAction s Action.loopIter).active_task_requests : ℤ) ≤ s.task_request_cap)) := by
  simp only [applyAction]
  split
  · exact ⟨fun _ => ⟨rfl, rfl⟩, le_max_left _ _, fun hne => absurd rfl hne⟩
  · split
    · next heq =>
        dsimp only
        exact ⟨fun _ => ⟨rfl, rfl⟩, le_max_left _ _, fun hne => absurd rfl hne⟩
    · next req rest heq =>
        split
        · next hge =>
            exact ⟨fun _ => ⟨rfl, rfl⟩, le_max_left _ _, fun hne => absurd rfl hne⟩
        · next hlt =>
            dsimp only
            refine ⟨fun hge2 => absurd hge2 hlt, by omega,
              fun _ => ⟨by omega, ?_, by omega⟩⟩
            rw [heq]
            rfl

/-- C5, witness: at the sample busy state (five task executions in flight
against a cap of three, one job queued) the iteration backs off — the
counter and the queue are unchanged. -/
theorem C5_dispatch_never_exceeds_cap_witness :
    (applyAction demoBusy Action.loopIter).active_task_requests
        = demoBusy.active_task_requests ∧
      (applyAction demoBusy Action.loopIter).task_queue = demoBusy.task_queue :=
  (C5_dispatch_never_exceeds_cap demoBusy).1 (by decide)

end HybridLLMGateway
